import Mathlib

/-!
Shallow embedding of the `perplexity_api_client` Python package
(`src/perplexity_api_client/perplexity.py`, `exceptions.py`, `types.py`).

Python values that can appear in configuration dictionaries and JSON
bodies are modelled by `PyVal`; Python `==` (with its numeric
cross-type equality, where `True == 1` and `0 == 0.0`) by `pyEq`;
`isinstance` (with `bool` a subclass of `int`) by `pyIsinstance`.
Dictionaries are association lists with the Python insertion-order
update semantics (`dictSet`, `dictMerge`).  Exceptions are modelled by
the `PyErr` sum type and fallible code returns `Except PyErr _`.
The HTTP transport is an oracle: each call to `ask`/`chat` receives a
`RequestResult` describing what `session.request` did.
-/

/-- A Python value, as used for config values and parsed JSON bodies.
`float` is modelled by `Rat` (no floating-point claim depends on rounding). -/
inductive PyVal where
  | none : PyVal
  | bool : Bool → PyVal
  | int : Int → PyVal
  | float : Rat → PyVal
  | str : String → PyVal
  | list : List PyVal → PyVal
  | dict : List (String × PyVal) → PyVal
deriving Repr

/-- The Python type of a value, for `isinstance` checks. -/
inductive PyType where
  | noneT | boolT | intT | floatT | strT | listT | dictT
deriving Repr, DecidableEq

def PyVal.pyType : PyVal → PyType
  | .none => .noneT
  | .bool _ => .boolT
  | .int _ => .intT
  | .float _ => .floatT
  | .str _ => .strT
  | .list _ => .listT
  | .dict _ => .dictT

/-- Python `isinstance(v, t)`: exact type match, plus the `bool <: int` subclassing. -/
def pyIsinstance (v : PyVal) (t : PyType) : Bool :=
  v.pyType == t || (v.pyType == .boolT && t == .intT)

/-- Python `v is None` (identity with the `None` singleton). -/
def PyVal.isNone : PyVal → Bool
  | .none => true
  | _ => false

def PyVal.isDict : PyVal → Bool
  | .dict _ => true
  | _ => false

/-- Numeric view used by Python `==`: `bool`, `int` and `float`
compare by value across types. -/
def PyVal.asNum : PyVal → Option Rat
  | .bool b => some (if b then 1 else 0)
  | .int n => some (n : Rat)
  | .float q => some q
  | _ => Option.none

/-- First-match lookup in an association list (Python dict `get`/`[]`,
with unique keys this is exactly dict lookup). -/
def pyLookup (k : String) : List (String × PyVal) → Option PyVal
  | [] => Option.none
  | (k2, v) :: rest => if k = k2 then some v else pyLookup k rest

/-- Python `d.get(k)` where a missing key yields `None`. -/
def dictGetD (d : List (String × PyVal)) (k : String) : PyVal :=
  (pyLookup k d).getD .none

mutual
/-- Python `==` on the modelled values: numeric cross-type equality,
structural equality on strings, lists and (insertion-ordered) dicts. -/
def pyEq : PyVal → PyVal → Bool
  | .none, .none => true
  | .str a, .str b => a == b
  | .list xs, .list ys => pyEqList xs ys
  | .dict xs, .dict ys => xs.length == ys.length && pyEqEntries xs ys
  | a, b =>
    match a.asNum, b.asNum with
    | some x, some y => x == y
    | _, _ => false

def pyEqList : List PyVal → List PyVal → Bool
  | [], [] => true
  | x :: xs, y :: ys => pyEq x y && pyEqList xs ys
  | _, _ => false

def pyEqEntries : List (String × PyVal) → List (String × PyVal) → Bool
  | [], _ => true
  | (k, v) :: rest, ys =>
    (match pyLookup k ys with
     | some w => pyEq v w
     | Option.none => false) && pyEqEntries rest ys
end

/-- Python truthiness of a value (`if value:`). -/
def pyTruthy : PyVal → Bool
  | .none => false
  | .bool b => b
  | .int n => n != 0
  | .float q => q != 0
  | .str s => s != ""
  | .list xs => !xs.isEmpty
  | .dict xs => !xs.isEmpty

/-- Dict item assignment `d[k] = v`: replaces the value in place when
the key is present, appends the pair otherwise. -/
def dictSet : List (String × PyVal) → String → PyVal → List (String × PyVal)
  | [], k, v => [(k, v)]
  | (k2, w) :: rest, k, v =>
    if k = k2 then (k2, v) :: rest else (k2, w) :: dictSet rest k v

/-- Dict merge `\x7b**d1, **d2\x7d`: start from `d1` and assign every
item of `d2` in order. -/
def dictMerge (d1 d2 : List (String × PyVal)) : List (String × PyVal) :=
  d2.foldl (fun acc kv => dictSet acc kv.1 kv.2) d1

/-- Exceptions raised by the modelled code
(`exceptions.py` plus the built-in Python exceptions it can surface). -/
inductive PyErr where
  | authError : String → PyErr
  | configError : String → PyErr
  | apiError : String → Option Nat → PyErr
  | typeError : String → PyErr
  | valueError : String → PyErr
  | keyError : PyErr
  | indexError : PyErr
deriving Repr, DecidableEq

/-- Model of `Perplexity.default_config` (class attribute, `perplexity.py` lines 14-26).
The float literals 0.2 and 0.9 are written as the normalised rationals
1/5 and 9/10 (`Rat.mk'`) so that witnesses reduce by `decide`. -/
def default_config : List (String × PyVal) :=
  [("max_tokens", .none),
   ("temperature", .float (Rat.mk' 1 5)),
   ("top_p", .float (Rat.mk' 9 10)),
   ("search_domain_filter", .list []),
   ("return_images", .bool false),
   ("return_related_questions", .bool false),
   ("search_recency_filter", .str "month"),
   ("top_k", .int 0),
   ("stream", .bool false),
   ("presence_penalty", .int 0),
   ("frequency_penalty", .int 1)]

/-- Body of `Perplexity.validate_config` over the items of a dict argument
(`perplexity.py` lines 241-248). -/
def validateConfigEntries : List (String × PyVal) → Except PyErr Unit
  | [] => .ok ()
  | (key, value) :: rest =>
    match pyLookup key default_config with
    | Option.none => .error (.configError ("Invalid configuration key: " ++ key))
    | some d =>
      if !d.isNone && !(pyIsinstance value d.pyType) then
        .error (.configError ("Invalid configuration value for key: " ++ key))
      else validateConfigEntries rest

/-- Model of `Perplexity.validate_config` (classmethod): `TypeError` on a
non-dict argument, then per-item key/type validation. -/
def validate_config (config : PyVal) : Except PyErr Unit :=
  match config with
  | .dict entries => validateConfigEntries entries
  | _ => .error (.typeError "The configuration must be a dictionary")

/-- Model of `Perplexity.is_config_valid` (classmethod): catches only
`PerplexityConfigError`; any other exception propagates. -/
def is_config_valid (config : PyVal) : Except PyErr Bool :=
  match validate_config config with
  | .ok _ => .ok true
  | .error (.configError _) => .ok false
  | .error e => .error e

/-- A transcript turn (the `\x7b"role": ..., "content": ...\x7d` dicts kept
in `chat_history`; content is `PyVal` because the assistant content is
whatever JSON value `choices[0].message.content` held). -/
structure Message where
  role : String
  content : PyVal
deriving Repr

def Message.toPyVal (m : Message) : PyVal :=
  .dict [("role", .str m.role), ("content", m.content)]

/-- Instance state of the `Perplexity` client.  The HTTP session object
is an external resource and is not part of the model; `__config` is the
name-mangled private override store. -/
structure Perplexity where
  auth_token : String
  model : String
  system_role : String
  chat_history : List Message
  __config : List (String × PyVal)
deriving Repr

/-- Python `x or y` on a possibly-`None`, possibly-empty string. -/
def orElseStr (arg : Option String) (inst : String) : String :=
  match arg with
  | some s => if s = "" then inst else s
  | Option.none => inst

/-- Model of `_validate_required_params` (`perplexity.py` lines 297-306):
resolves each argument against the instance (`x or self.y`) and checks
emptiness in order api_key, model, system_role. -/
def Perplexity._validate_required_params (s : Perplexity)
    (api_key model system_role : Option String) : Except PyErr Unit :=
  let api_key := orElseStr api_key s.auth_token
  let model := orElseStr model s.model
  let system_role := orElseStr system_role s.system_role
  if api_key = "" then .error (.authError "API key is required")
  else if model = "" then .error (.configError "Model name is required")
  else if system_role = "" then .error (.configError "System role is required")
  else .ok ()

/-- The loop of `_validate_and_set_config` (`perplexity.py` lines
252-254): each item whose value `!=` its default is assigned into the
stored overrides; items equal to the default are skipped (no removal). -/
def applyNonDefaultOverrides (stored : List (String × PyVal)) :
    List (String × PyVal) → List (String × PyVal)
  | [] => stored
  | (key, value) :: rest =>
    applyNonDefaultOverrides
      (if !pyEq value (dictGetD default_config key) then dictSet stored key value
       else stored) rest

/-- Model of `_validate_and_set_config` (`perplexity.py` lines 250-254). -/
def Perplexity._validate_and_set_config (s : Perplexity)
    (config : List (String × PyVal)) : Except PyErr Perplexity :=
  match validate_config (.dict config) with
  | .error e => .error e
  | .ok _ => .ok { s with __config := applyNonDefaultOverrides s.__config config }

/-- Model of `set_config(**kwargs)` (`perplexity.py` lines 69-80). -/
def Perplexity.set_config (s : Perplexity) (kwargs : List (String × PyVal)) :
    Except PyErr Perplexity :=
  s._validate_and_set_config kwargs

/-- Model of `reset_config` (`perplexity.py` lines 82-88). -/
def Perplexity.reset_config (s : Perplexity) : Perplexity :=
  { s with __config := [] }

/-- The `config` property read, i.e. the `get_config()` of the spec
(`perplexity.py` lines 49-63): defaults overlaid by stored overrides,
entries whose value `is None` removed. -/
def Perplexity.config (s : Perplexity) : List (String × PyVal) :=
  (dictMerge default_config s.__config).filter (fun kv => !kv.2.isNone)

/-- Model of `_get_validated_config` (`perplexity.py` lines 256-258): validates,
then keeps only the items whose value `!=` its default. -/
def _get_validated_config (config : List (String × PyVal)) :
    Except PyErr (List (String × PyVal)) :=
  match validate_config (.dict config) with
  | .error e => .error e
  | .ok _ => .ok (config.filter (fun kv => !pyEq kv.2 (dictGetD default_config kv.1)))

/-- The constructor `__init__` (`perplexity.py` lines 28-47).  Field
assignment, required-param validation, the initial system turn, then
optional config validation/merge.  (Opening the HTTP session is an
external effect outside the model.) -/
def Perplexity.init (api_key model system_role : String)
    (config : Option (List (String × PyVal))) : Except PyErr Perplexity :=
  let s : Perplexity :=
    { auth_token := api_key, model := model, system_role := system_role,
      chat_history := [], __config := [] }
  match s._validate_required_params Option.none Option.none Option.none with
  | .error e => .error e
  | .ok _ =>
    let s := { s with chat_history := [{ role := "system", content := .str system_role }] }
    match config with
    | Option.none => .ok s
    | some c => s._validate_and_set_config c

/-- An HTTP response as seen by the client: status, body text, and the
result of `response.json()` (`Option.none` models a `ValueError` from
an unparseable body). -/
structure HttpResponse where
  status_code : Nat
  text : String
  jsonBody : Option PyVal
deriving Repr

/-- Field `response.ok` in requests: true iff the status is below 400. -/
def HttpResponse.ok (r : HttpResponse) : Bool :=
  decide (r.status_code < 400)

/-- A `requests.exceptions.RequestException`: its message and its
`response` attribute (`Option.none` for transport-level failures such as
timeouts and connection errors). -/
structure RequestException where
  msg : String
  response : Option HttpResponse
deriving Repr

/-- What one call to `session.request` did: returned a response, or
raised a `RequestException` with no response attached. -/
inductive RequestResult where
  | success : HttpResponse → RequestResult
  | failure : RequestException → RequestResult
deriving Repr

mutual
/-- Rendering of a value into the error-message strings (approximates
Python `str`/`repr`; no claim depends on the rendered text). -/
def pyStr : PyVal → String
  | .none => "None"
  | .bool true => "True"
  | .bool false => "False"
  | .int n => toString n
  | .float q => toString q
  | .str s => s
  | .list xs => "[" ++ pyStrList xs ++ "]"
  | .dict xs => "\x7b" ++ pyStrEntries xs ++ "\x7d"

def pyStrList : List PyVal → String
  | [] => ""
  | [x] => pyStr x
  | x :: xs => pyStr x ++ ", " ++ pyStrList xs

def pyStrEntries : List (String × PyVal) → String
  | [] => ""
  | [(k, v)] => k ++ ": " ++ pyStr v
  | (k, v) :: xs => k ++ ": " ++ pyStr v ++ ", " ++ pyStrEntries xs
end

/-- Model of `_raise_error_message` (`perplexity.py` lines 260-277): with a
response attached, 400 raises ConfigError, 401 AuthError, anything else
APIError carrying the status; without one, APIError with no status. -/
def requestErrorMsg (msg : String) (r : HttpResponse) : String :=
  "Request failed: " ++ msg
    ++ "\nStatus code: " ++ toString r.status_code
    ++ "\nResponse: " ++ (match r.jsonBody with
                          | some j => pyStr j
                          | Option.none => r.text)

def _raise_error_message (e : RequestException) : PyErr :=
  match e.response with
  | some r =>
    let error_msg := requestErrorMsg e.msg r
    if r.status_code = 400 then .configError error_msg
    else if r.status_code = 401 then .authError error_msg
    else .apiError error_msg (some r.status_code)
  | Option.none =>
    .apiError ("Request failed: " ++ e.msg) Option.none

/-- Subscripting with a string key, `v[k]`: dict lookup (`KeyError`
when absent), `TypeError` on any non-dict. -/
def pySubscriptStr (v : PyVal) (k : String) : Except PyErr PyVal :=
  match v with
  | .dict fields =>
    match pyLookup k fields with
    | some w => .ok w
    | Option.none => .error .keyError
  | _ => .error (.typeError "unsubscriptable or non-string indices")

/-- Subscripting with a non-negative integer, `v[i]`: list indexing
(`IndexError` out of range), single-character strings on `str`,
`KeyError` on a dict without that key, `TypeError` otherwise. -/
def pySubscriptInt (v : PyVal) (i : Nat) : Except PyErr PyVal :=
  match v with
  | .list xs =>
    match xs.get? i with
    | some w => .ok w
    | Option.none => .error .indexError
  | .str s =>
    match s.toList.get? i with
    | some c => .ok (.str (String.singleton c))
    | Option.none => .error .indexError
  | .dict _ => .error .keyError
  | _ => .error (.typeError "unsubscriptable")

/-- The access path `json_data["choices"][0]["message"]["content"]`. -/
def extractContent (json_data : PyVal) : Except PyErr PyVal := do
  let choices ← pySubscriptStr json_data "choices"
  let c0 ← pySubscriptInt choices 0
  let m ← pySubscriptStr c0 "message"
  pySubscriptStr m "content"

/-- The four views built by `_format_response`
(`perplexity.py` lines 279-295). -/
structure FormattedResponse where
  raw : HttpResponse
  text : String
  json : PyVal
  llm_response : PyVal
deriving Repr

/-- Model of `_format_response`: on an unparseable body, or a `KeyError` (or
`ValueError`) from the content path, both `json` and `llm_response`
are `None`; an `IndexError` or `TypeError` from the path propagates
(it is outside the `except (ValueError, KeyError)` clause). -/
def _format_response (response : HttpResponse) : Except PyErr FormattedResponse :=
  match response.jsonBody with
  | Option.none =>
    .ok { raw := response, text := response.text, json := .none, llm_response := .none }
  | some json_data =>
    match extractContent json_data with
    | .ok content =>
      .ok { raw := response, text := response.text,
            json := json_data, llm_response := content }
    | .error .keyError =>
      .ok { raw := response, text := response.text, json := .none, llm_response := .none }
    | .error (.valueError _) =>
      .ok { raw := response, text := response.text, json := .none, llm_response := .none }
    | .error e => .error e

/-- The heterogeneous value `formatted_response[response_type]`
returned by `ask`/`chat`. -/
inductive ChatResult where
  | raw : HttpResponse → ChatResult
  | text : String → ChatResult
  | json : PyVal → ChatResult
  | llm_response : PyVal → ChatResult
deriving Repr

/-- Dict access `formatted_response[response_type]` on the four-key
formatted dict (`KeyError` on any other key; unreachable after
`validate_response_type`). -/
def FormattedResponse.select (f : FormattedResponse) (response_type : String) :
    Except PyErr ChatResult :=
  if response_type = "raw" then .ok (.raw f.raw)
  else if response_type = "text" then .ok (.text f.text)
  else if response_type = "json" then .ok (.json f.json)
  else if response_type = "llm_response" then .ok (.llm_response f.llm_response)
  else .error .keyError

/-- The members of `ResponseFormatType` (`types.py`). -/
def validResponseTypes : List String := ["raw", "text", "json", "llm_response"]

/-- Model of `ResponseFormatType.validate_response_type` for a string argument
(`types.py` lines 12-35). -/
def validate_response_type (response_type : String) : Except PyErr Unit :=
  if validResponseTypes.contains response_type then .ok ()
  else .error (.valueError ("Invalid response_type: " ++ response_type
    ++ ". Valid options are: [raw, text, json, llm_response]"))

/-- The message of the `HTTPError` raised by `raise_for_status`
(text approximated; no claim depends on it). -/
def raiseForStatusMsg (r : HttpResponse) : String :=
  toString r.status_code ++ " Error"

/-- The payload `chat` sends: `\x7b"model": ..., "messages":
chat_history, **self.__config\x7d`, built after the user turn is
appended. -/
def chatPayload (s : Perplexity) : PyVal :=
  .dict (dictMerge
    [("model", .str s.model),
     ("messages", .list (s.chat_history.map Message.toPyVal))]
    s.__config)

/-- Model of `chat` (`perplexity.py` lines 157-199).  `transport` is the
behaviour of `session.request` on the payload this call sends: this is
the external HTTP collaborator.  Returns the state after the call
together with the returned view or the raised exception. -/
def Perplexity.chat (s : Perplexity) (message : String)
    (response_type : String) (transport : PyVal → RequestResult) :
    Perplexity × Except PyErr ChatResult :=
  match validate_response_type response_type with
  | .error e => (s, .error e)
  | .ok _ =>
  match s._validate_required_params Option.none Option.none Option.none with
  | .error e => (s, .error e)
  | .ok _ =>
  let s1 := { s with chat_history :=
    s.chat_history ++ [{ role := "user", content := .str message }] }
  match transport (chatPayload s1) with
  | .failure e => (s1, .error (_raise_error_message e))
  | .success r =>
    if r.ok then
      match _format_response r with
      | .error e => (s1, .error e)
      | .ok f =>
        let s2 := if pyTruthy f.llm_response then
            { s1 with chat_history :=
              s1.chat_history ++ [{ role := "assistant", content := f.llm_response }] }
          else s1
        (s2, f.select response_type)
    else (s1, .error (_raise_error_message { msg := raiseForStatusMsg r, response := some r }))

/-- The payload `ask` sends: model, a system turn and the single user
turn, then the validated non-default per-call config. -/
def askPayload (model system_role message : String)
    (vconfig : List (String × PyVal)) : PyVal :=
  .dict (dictMerge
    [("model", .str model),
     ("messages", .list
       [.dict [("role", .str "system"), ("content", .str system_role)],
        .dict [("role", .str "user"), ("content", .str message)]])]
    vconfig)

/-- Model of `ask` (`perplexity.py` lines 90-155).  Optional model/system_role
resolve against the instance; per-call config is validated and filtered
to non-default entries; on success the transcript gains a user and an
assistant turn only when `append_history` is set and the extracted
content is truthy. -/
def Perplexity.ask (s : Perplexity) (message : String)
    (modelArg systemRoleArg : Option String) (append_history : Bool)
    (response_type : String) (config : List (String × PyVal))
    (transport : PyVal → RequestResult) :
    Perplexity × Except PyErr ChatResult :=
  let model := orElseStr modelArg s.model
  let system_role := orElseStr systemRoleArg s.system_role
  match s._validate_required_params Option.none (some model) (some system_role) with
  | .error e => (s, .error e)
  | .ok _ =>
  match _get_validated_config config with
  | .error e => (s, .error e)
  | .ok vconfig =>
  match validate_response_type response_type with
  | .error e => (s, .error e)
  | .ok _ =>
  match transport (askPayload model system_role message vconfig) with
  | .failure e => (s, .error (_raise_error_message e))
  | .success r =>
    if r.ok then
      match _format_response r with
      | .error e => (s, .error e)
      | .ok f =>
        let s2 := if append_history && pyTruthy f.llm_response then
            { s with chat_history := s.chat_history ++
              [{ role := "user", content := .str message },
               { role := "assistant", content := f.llm_response }] }
          else s
        (s2, f.select response_type)
    else (s, .error (_raise_error_message { msg := raiseForStatusMsg r, response := some r }))

/-- One config item as `validate_config` checks it: known key, and a
type match whenever the default is not `None`. -/
def goodEntry (kv : String × PyVal) : Bool :=
  match pyLookup kv.1 default_config with
  | Option.none => false
  | some d => d.isNone || pyIsinstance kv.2 d.pyType

/-- A freshly constructed client with no overrides (concrete test
fixture used by witnesses). -/
def baseClient : Perplexity :=
  { auth_token := "key", model := "model", system_role := "role",
    chat_history := [{ role := "system", content := .str "role" }],
    __config := [] }

/-- The state of `baseClient` after an accepted override `temperature = 0.5`. -/
def overriddenClient : Perplexity :=
  { baseClient with __config := [("temperature", .float (Rat.mk' 1 2))] }

/-- A mocked 200 response with body
`\x7b"choices":[\x7b"message":\x7b"content":"X"\x7d\x7d]\x7d`. -/
def mockOk : HttpResponse :=
  { status_code := 200, text := "mock",
    jsonBody := some (.dict [("choices",
      .list [.dict [("message", .dict [("content", .str "X")])]])]) }

/-! ### Helper lemmas -/

theorem validateConfigEntries_ok_iff (entries : List (String × PyVal)) :
    validateConfigEntries entries = .ok () ↔ ∀ kv ∈ entries, goodEntry kv = true := by
  induction entries with
  | nil => simp [validateConfigEntries]
  | cons kv rest ih =>
    obtain ⟨k, v⟩ := kv
    rw [validateConfigEntries]
    cases h : pyLookup k default_config with
    | none =>
      simp only [goodEntry]
      constructor
      · intro hcontra; cases hcontra
      · intro hall
        have := hall (k, v) (List.mem_cons_self _ _)
        rw [h] at this
        cases this
    | some d =>
      dsimp only
      by_cases hbad : (!d.isNone && !(pyIsinstance v d.pyType)) = true
      · rw [if_pos hbad]
        constructor
        · intro hcontra; cases hcontra
        · intro hall
          have := hall (k, v) (List.mem_cons_self _ _)
          simp only [goodEntry, h] at this
          simp only [Bool.and_eq_true, Bool.not_eq_true'] at hbad
          rw [hbad.1, hbad.2] at this
          cases this
      · rw [if_neg hbad, ih]
        constructor
        · intro hall kv hkv
          rcases List.mem_cons.mp hkv with hkv | hkv
          · subst hkv
            simp only [goodEntry, h]
            simp only [Bool.and_eq_true, Bool.not_eq_true'] at hbad
            rcases Bool.eq_false_or_eq_true d.isNone with hn | hn
            · simp [hn]
            · rcases Bool.eq_false_or_eq_true (pyIsinstance v d.pyType) with hi | hi
              · simp [hi]
              · exact absurd ⟨hn, hi⟩ hbad
          · exact hall kv hkv
        · intro hall kv hkv
          exact hall kv (List.mem_cons_of_mem _ hkv)

theorem validateConfigEntries_ok_or_configError (entries : List (String × PyVal)) :
    validateConfigEntries entries = .ok () ∨
    ∃ m, validateConfigEntries entries = .error (.configError m) := by
  induction entries with
  | nil => exact Or.inl rfl
  | cons kv rest ih =>
    obtain ⟨k, v⟩ := kv
    rw [validateConfigEntries]
    cases h : pyLookup k default_config with
    | none => exact Or.inr ⟨_, rfl⟩
    | some d =>
      dsimp only
      by_cases hbad : (!d.isNone && !(pyIsinstance v d.pyType)) = true
      · rw [if_pos hbad]; exact Or.inr ⟨_, rfl⟩
      · rw [if_neg hbad]; exact ih

theorem mem_dictSet {d : List (String × PyVal)} {k : String} {v : PyVal}
    {kv : String × PyVal} (h : kv ∈ dictSet d k v) : kv ∈ d ∨ kv = (k, v) := by
  induction d with
  | nil =>
    simp only [dictSet, List.mem_singleton] at h
    exact Or.inr h
  | cons hd tl ih =>
    obtain ⟨k2, w⟩ := hd
    simp only [dictSet] at h
    by_cases hk : k = k2
    · rw [if_pos hk] at h
      rcases List.mem_cons.mp h with h1 | h1
      · subst hk; exact Or.inr h1
      · exact Or.inl (List.mem_cons_of_mem _ h1)
    · rw [if_neg hk] at h
      rcases List.mem_cons.mp h with h1 | h1
      · exact Or.inl (h1 ▸ List.mem_cons_self _ _)
      · rcases ih h1 with h2 | h2
        · exact Or.inl (List.mem_cons_of_mem _ h2)
        · exact Or.inr h2

theorem mem_dictMerge {d1 d2 : List (String × PyVal)} {kv : String × PyVal}
    (h : kv ∈ dictMerge d1 d2) : kv ∈ d1 ∨ kv ∈ d2 := by
  induction d2 generalizing d1 with
  | nil => exact Or.inl h
  | cons hd tl ih =>
    have h1 : kv ∈ dictMerge (dictSet d1 hd.1 hd.2) tl := h
    rcases ih h1 with h2 | h2
    · rcases mem_dictSet h2 with h3 | h3
      · exact Or.inl h3
      · exact Or.inr (h3 ▸ (by rw [Prod.mk.eta]; exact List.mem_cons_self _ _))
    · exact Or.inr (List.mem_cons_of_mem _ h2)

/-! ### Claim theorems -/

/-- C8: after `reset_config()`, `get_config()` (the `config` property)
returns exactly the default mapping minus its `None`-valued entries,
and `reset_config` leaves the api_key, model, system_role and the
transcript unchanged — whatever `set_config` calls produced the state. -/
theorem reset_config_restores_defaults (s : Perplexity) :
    s.reset_config.config = default_config.filter (fun kv => !kv.2.isNone)
    ∧ s.reset_config.auth_token = s.auth_token
    ∧ s.reset_config.model = s.model
    ∧ s.reset_config.system_role = s.system_role
    ∧ s.reset_config.chat_history = s.chat_history :=
  ⟨rfl, rfl, rfl, rfl, rfl⟩

/-- C6: `get_config()` never maps a key to `None`; in particular
`max_tokens` is absent from the result whenever no stored override
gives it a non-`None` value. -/
theorem get_config_never_none (s : Perplexity) :
    (∀ kv ∈ s.config, kv.2.isNone = false)
    ∧ ((∀ w, ("max_tokens", w) ∈ s.__config → w.isNone = true) →
        ∀ w, ("max_tokens", w) ∉ s.config) := by
  constructor
  · intro kv hkv
    have h := List.mem_filter.mp hkv
    simpa using h.2
  · intro hov w hw
    have hf := List.mem_filter.mp hw
    have hnn : w.isNone = false := by simpa using hf.2
    rcases mem_dictMerge hf.1 with h | h
    · have hwn : w = PyVal.none := by
        simp [default_config] at h
        exact h
      rw [hwn] at hnn
      cases hnn
    · have := hov w h
      rw [this] at hnn
      cases hnn

/-- C9: `is_config_valid` propagates the `TypeError` that
`validate_config` raises on any non-dict argument (only
`PerplexityConfigError` is caught), so it returns a boolean only for
dict inputs. -/
theorem is_config_valid_nondict_typeerror (v : PyVal) (h : v.isDict = false) :
    is_config_valid v = .error (.typeError "The configuration must be a dictionary") := by
  cases v with
  | dict entries => simp [PyVal.isDict] at h
  | none => rfl
  | bool b => rfl
  | int n => rfl
  | float q => rfl
  | str s => rfl
  | list xs => rfl

/-- C9 witness: a concrete non-dict argument (the integer 3). -/
theorem is_config_valid_nondict_typeerror_witness :
    is_config_valid (PyVal.int 3)
      = .error (.typeError "The configuration must be a dictionary") :=
  is_config_valid_nondict_typeerror (PyVal.int 3) rfl

/-- C10: for the config keys whose default is an `int` (`top_k`,
`presence_penalty`, `frequency_penalty`), a `bool` value passes
validation, because `isinstance(value, int)` holds for booleans. -/
theorem bool_accepted_for_int_defaults (k : String) (b : Bool)
    (hk : k = "top_k" ∨ k = "presence_penalty" ∨ k = "frequency_penalty") :
    validate_config (.dict [(k, .bool b)]) = .ok ()
    ∧ is_config_valid (.dict [(k, .bool b)]) = .ok true := by
  rcases hk with h | h | h <;> subst h <;> cases b <;> exact ⟨rfl, rfl⟩

/-- C10 witness: `is_config_valid(\x7b"top_k": True\x7d)` is `True`. -/
theorem bool_accepted_for_int_defaults_witness :
    validate_config (.dict [("top_k", .bool true)]) = .ok ()
    ∧ is_config_valid (.dict [("top_k", .bool true)]) = .ok true :=
  bool_accepted_for_int_defaults "top_k" true (Or.inl rfl)

/-- C6 witness: a fresh client with no overrides has no `max_tokens`
entry in its effective config. -/
theorem get_config_never_none_witness :
    ("max_tokens", PyVal.none) ∉ baseClient.config :=
  (get_config_never_none baseClient).2
    (by intro w hw; simp [baseClient] at hw) PyVal.none

/-- C1 counterexample: with the override `temperature = 0.5` stored,
`set_config(temperature=0.2)` (0.2 being the default) leaves the
override in place — the state is unchanged — so `get_config()` still
reports 0.5, not the default. -/
theorem set_config_default_keeps_override_cex :
    baseClient.set_config [("temperature", PyVal.float (Rat.mk' 1 2))]
      = .ok overriddenClient
    ∧ dictGetD default_config "temperature" = PyVal.float (Rat.mk' 1 5)
    ∧ overriddenClient.set_config [("temperature", PyVal.float (Rat.mk' 1 5))]
      = .ok overriddenClient
    ∧ pyLookup "temperature" overriddenClient.config
      = some (PyVal.float (Rat.mk' 1 2)) :=
  ⟨rfl, rfl, rfl, rfl⟩

/-- C1 (amended): calling `set_config` with a key set to its default
value is a no-op — it does NOT remove an existing override for that
key; the incoming default-valued entry is merely dropped, and the
whole client state (including `get_config()`) is unchanged. -/
theorem set_config_default_is_noop (s : Perplexity) (k : String) (v : PyVal)
    (hvalid : validate_config (.dict [(k, v)]) = .ok ())
    (hdef : pyEq v (dictGetD default_config k) = true) :
    s.set_config [(k, v)] = .ok s := by
  simp only [Perplexity.set_config, Perplexity._validate_and_set_config, hvalid,
    applyNonDefaultOverrides, hdef, Bool.not_true, Bool.false_eq_true, if_false]

/-- C1 witness for the amended claim: setting `top_k` to its default 0
on a client that has an override for `temperature` changes nothing. -/
theorem set_config_default_is_noop_witness :
    overriddenClient.set_config [("top_k", PyVal.int 0)] = .ok overriddenClient :=
  set_config_default_is_noop overriddenClient "top_k" (PyVal.int 0) rfl rfl

/-- C2: classification of failed requests.  A response with status 400
raises ConfigError, 401 AuthError, any other status APIError carrying
that status code; a `RequestException` without a response (timeout,
connection error) raises APIError with no status code.  `chat` and
`ask` route every transport failure through this classification. -/
theorem raise_error_classification (e : RequestException) :
    (∀ r, e.response = some r → r.status_code = 400 →
      _raise_error_message e = .configError (requestErrorMsg e.msg r))
    ∧ (∀ r, e.response = some r → r.status_code = 401 →
      _raise_error_message e = .authError (requestErrorMsg e.msg r))
    ∧ (∀ r, e.response = some r → r.status_code ≠ 400 → r.status_code ≠ 401 →
      _raise_error_message e = .apiError (requestErrorMsg e.msg r) (some r.status_code))
    ∧ (e.response = Option.none →
      _raise_error_message e = .apiError ("Request failed: " ++ e.msg) Option.none)
    ∧ (∀ (s : Perplexity) (msg rt : String),
        validate_response_type rt = .ok () →
        s._validate_required_params Option.none Option.none Option.none = .ok () →
        (s.chat msg rt (fun _ => .failure e)).2 = .error (_raise_error_message e))
    ∧ (∀ (s : Perplexity) (msg : String) (ma sa : Option String) (ah : Bool)
        (rt : String) (cfg : List (String × PyVal)),
        s._validate_required_params Option.none (some (orElseStr ma s.model))
          (some (orElseStr sa s.system_role)) = .ok () →
        validateConfigEntries cfg = .ok () →
        validate_response_type rt = .ok () →
        (s.ask msg ma sa ah rt cfg (fun _ => .failure e)).2
          = .error (_raise_error_message e)) := by
  refine ⟨?_, ?_, ?_, ?_, ?_, ?_⟩
  · intro r hr h400
    simp [_raise_error_message, hr, h400]
  · intro r hr h401
    simp [_raise_error_message, hr, h401]
  · intro r hr h400 h401
    simp [_raise_error_message, hr, h400, h401]
  · intro hr
    simp [_raise_error_message, hr]
  · intro s msg rt hrt hreq
    simp [Perplexity.chat, hrt, hreq]
  · intro s msg ma sa ah rt cfg hreq hcfg hrt
    simp [Perplexity.ask, hreq, hcfg, hrt, _get_validated_config, validate_config]

/-- C2 witness: a mocked 500 response classifies as APIError carrying
status 500. -/
theorem raise_error_classification_witness :
    _raise_error_message
        { msg := "boom", response := some { status_code := 500, text := "t", jsonBody := Option.none } }
      = .apiError
          (requestErrorMsg "boom" { status_code := 500, text := "t", jsonBody := Option.none })
          (some 500) :=
  (raise_error_classification _).2.2.1 _ rfl (by decide) (by decide)

/-- C4: the constructor raises AuthError on an empty api_key, then
ConfigError on an empty model, then ConfigError on an empty
system_role; a fully non-empty triple (with the default or a valid
config argument) succeeds, and the transcript of the new client is exactly
one system turn carrying the given system_role. -/
theorem constructor_validation (k m r : String)
    (cfg : Option (List (String × PyVal))) :
    (k = "" → Perplexity.init k m r cfg = .error (.authError "API key is required"))
    ∧ (k ≠ "" → m = "" →
        Perplexity.init k m r cfg = .error (.configError "Model name is required"))
    ∧ (k ≠ "" → m ≠ "" → r = "" →
        Perplexity.init k m r cfg = .error (.configError "System role is required"))
    ∧ (k ≠ "" → m ≠ "" → r ≠ "" → cfg = Option.none →
        Perplexity.init k m r cfg
          = .ok ⟨k, m, r, [{ role := "system", content := .str r }], []⟩)
    ∧ (k ≠ "" → m ≠ "" → r ≠ "" → ∀ c, cfg = some c →
        validateConfigEntries c = .ok () →
        Perplexity.init k m r cfg
          = .ok ⟨k, m, r, [{ role := "system", content := .str r }],
                 applyNonDefaultOverrides [] c⟩) := by
  refine ⟨?_, ?_, ?_, ?_, ?_⟩
  · intro hk
    simp [Perplexity.init, Perplexity._validate_required_params, orElseStr, hk]
  · intro hk hm
    simp [Perplexity.init, Perplexity._validate_required_params, orElseStr, hk, hm]
  · intro hk hm hr
    simp [Perplexity.init, Perplexity._validate_required_params, orElseStr, hk, hm, hr]
  · intro hk hm hr hcfg
    subst hcfg
    simp [Perplexity.init, Perplexity._validate_required_params, orElseStr, hk, hm, hr]
  · intro hk hm hr c hcfg hc
    subst hcfg
    simp [Perplexity.init, Perplexity._validate_required_params, orElseStr, hk, hm, hr,
      Perplexity._validate_and_set_config, validate_config, hc]

/-- C4 witness: a concrete valid triple builds a client whose
transcript is the single system turn. -/
theorem constructor_validation_witness :
    Perplexity.init "key" "model" "role" Option.none
      = .ok ⟨"key", "model", "role", [{ role := "system", content := .str "role" }], []⟩ :=
  (constructor_validation "key" "model" "role" Option.none).2.2.2.1
    (by decide) (by decide) (by decide) rfl

/-- C5: a config mapping containing a key absent from the default
mapping makes `validate_config` raise ConfigError; so does a value
whose type mismatches a non-`None` default; keys whose default is
`None` (`max_tokens`) accept a value of any type; and `set_config`
propagates exactly the error of `validate_config`. -/
theorem config_validation_errors (entries : List (String × PyVal))
    (k : String) (v : PyVal) :
    ((k, v) ∈ entries → pyLookup k default_config = Option.none →
      ∃ m, validate_config (.dict entries) = .error (.configError m))
    ∧ (∀ d, (k, v) ∈ entries → pyLookup k default_config = some d →
        d.isNone = false → pyIsinstance v d.pyType = false →
        ∃ m, validate_config (.dict entries) = .error (.configError m))
    ∧ (∀ w, validate_config (.dict [("max_tokens", w)]) = .ok ())
    ∧ (∀ (s : Perplexity) (e : PyErr), validate_config (.dict entries) = .error e →
        s.set_config entries = .error e) := by
  refine ⟨?_, ?_, ?_, ?_⟩
  · intro hmem hlk
    rcases validateConfigEntries_ok_or_configError entries with hok | herr
    · exfalso
      have := (validateConfigEntries_ok_iff entries).mp hok (k, v) hmem
      simp [goodEntry, hlk] at this
    · exact herr
  · intro d hmem hlk hdn hinst
    rcases validateConfigEntries_ok_or_configError entries with hok | herr
    · exfalso
      have := (validateConfigEntries_ok_iff entries).mp hok (k, v) hmem
      simp [goodEntry, hlk, hdn, hinst] at this
    · exact herr
  · intro w
    rfl
  · intro s e h
    simp [Perplexity.set_config, Perplexity._validate_and_set_config, h]

/-- C5 witness: `max_tokens` (default `None`) accepts a string
value. -/
theorem config_validation_errors_witness :
    validate_config (.dict [("max_tokens", PyVal.str "anything")]) = .ok () :=
  (config_validation_errors [] "" PyVal.none).2.2.1 (PyVal.str "anything")

/-- C7: `ask` with `append_history=False` leaves the transcript length
unchanged on every path — validation error, transport failure, failed
status, and success alike (the whole state is in fact unchanged). -/
theorem ask_no_append_preserves_history (s : Perplexity) (msg : String)
    (ma sa : Option String) (rt : String) (cfg : List (String × PyVal))
    (transport : PyVal → RequestResult) :
    (s.ask msg ma sa false rt cfg transport).1.chat_history.length
      = s.chat_history.length := by
  have hstate : (s.ask msg ma sa false rt cfg transport).1 = s := by
    unfold Perplexity.ask
    dsimp only
    cases hq : s._validate_required_params Option.none (some (orElseStr ma s.model))
        (some (orElseStr sa s.system_role)) with
    | error e => rfl
    | ok u =>
      cases hg : _get_validated_config cfg with
      | error e => rfl
      | ok vconfig =>
        cases hv : validate_response_type rt with
        | error e => rfl
        | ok u2 =>
          cases ht : transport (askPayload (orElseStr ma s.model)
              (orElseStr sa s.system_role) msg vconfig) with
          | failure e => simp [ht]
          | success r =>
            cases hok : r.ok with
            | false => simp [ht, hok]
            | true =>
              cases hf : _format_response r with
              | error e => simp [ht, hok, hf]
              | ok f => simp [ht, hok, hf]
  rw [hstate]

/-- C3: under the default response_type, `chat` appends the user turn
before sending and never reverts it: on a transport failure or a
failed status the transcript ends with the new user turn (length + 1);
on a success whose extracted assistant content is non-empty the
transcript grows by exactly 2 — the user turn then an assistant turn
holding `choices[0].message.content` — and that content is returned. -/
theorem chat_appends_user_turn (s : Perplexity) (msg : String)
    (transport : PyVal → RequestResult)
    (hreq : s._validate_required_params Option.none Option.none Option.none
      = .ok ()) :
    (∀ e, (∀ p, transport p = .failure e) →
      (s.chat msg "llm_response" transport).1.chat_history
        = s.chat_history ++ [{ role := "user", content := .str msg }]
      ∧ (s.chat msg "llm_response" transport).1.chat_history.length
        = s.chat_history.length + 1)
    ∧ (∀ r, (∀ p, transport p = .success r) → r.ok = false →
      (s.chat msg "llm_response" transport).1.chat_history
        = s.chat_history ++ [{ role := "user", content := .str msg }]
      ∧ (s.chat msg "llm_response" transport).1.chat_history.length
        = s.chat_history.length + 1)
    ∧ (∀ r f, (∀ p, transport p = .success r) → r.ok = true →
        _format_response r = .ok f → pyTruthy f.llm_response = true →
      (s.chat msg "llm_response" transport).1.chat_history
        = s.chat_history ++ [{ role := "user", content := .str msg },
                             { role := "assistant", content := f.llm_response }]
      ∧ (s.chat msg "llm_response" transport).1.chat_history.length
        = s.chat_history.length + 2
      ∧ (s.chat msg "llm_response" transport).2
        = .ok (.llm_response f.llm_response)) := by
  have hrt : validate_response_type "llm_response" = .ok () := rfl
  refine ⟨?_, ?_, ?_⟩
  · intro e htr
    constructor
    · simp [Perplexity.chat, hrt, hreq, htr]
    · simp [Perplexity.chat, hrt, hreq, htr]
  · intro r htr hok
    constructor
    · simp [Perplexity.chat, hrt, hreq, htr, hok]
    · simp [Perplexity.chat, hrt, hreq, htr, hok]
  · intro r f htr hok hfmt htru
    refine ⟨?_, ?_, ?_⟩
    · simp [Perplexity.chat, hrt, hreq, htr, hok, hfmt, htru]
    · simp [Perplexity.chat, hrt, hreq, htr, hok, hfmt, htru]
    · simp [Perplexity.chat, hrt, hreq, htr, hok, hfmt, htru, FormattedResponse.select]

/-- C3 witness: the mocked exchange of the spec — a 200 response with body
`\x7b"choices":[\x7b"message":\x7b"content":"X"\x7d\x7d]\x7d` makes `chat("hi")` return
"X" and the transcript become `[system, user("hi"), assistant("X")]`. -/
theorem chat_appends_user_turn_witness :
    (baseClient.chat "hi" "llm_response" (fun _ => .success mockOk)).1.chat_history
      = [{ role := "system", content := .str "role" },
         { role := "user", content := .str "hi" },
         { role := "assistant", content := .str "X" }]
    ∧ (baseClient.chat "hi" "llm_response" (fun _ => .success mockOk)).2
      = .ok (.llm_response (.str "X")) := by
  have h := (chat_appends_user_turn baseClient "hi" (fun _ => .success mockOk) rfl).2.2
    mockOk
    { raw := mockOk, text := "mock",
      json := .dict [("choices",
        .list [.dict [("message", .dict [("content", .str "X")])]])],
      llm_response := .str "X" }
    (fun _ => rfl) rfl rfl rfl
  exact ⟨by rw [h.1]; rfl, h.2.2⟩
